import Mathlib

/-! Resume bullet optimizer: form controller and API client.

A shallow embedding of `frontend/src/App.jsx` (the form controller) and
`frontend/src/api.js` (the API client), followed by the properties proved of them.

Conventions of the embedding.

* A JavaScript string is the list of its UTF-16 code units, so that `length` is
  `List.length`, as in the language.
* A JavaScript value is one of the values `JSON.parse` can produce, or `undefined`
  (the value of a missing property).
* The asynchronous `onSubmit` is split at its one `await`: `onSubmitBegin` is the part
  that runs when the submit event is handled (up to and including the call of `fetch`),
  `onSubmitEnd` is the part that runs when the request has settled.  In the same way
  `optimizeBulletCall` is the `fetch` call made by `optimizeBullet` and
  `optimizeBulletResult` is what `optimizeBullet` produces once `fetch` has settled.
* What the network does is an input: a `FetchOutcome`.
* Of the render only lines 71-108 are modelled, and of them only whether they show the
  result panel, show nothing, or throw (`renderResults`); the texts shown are not.
-/

namespace BulletOptimizer

/-! ## Strings -/

/-- A JavaScript string, as the list of its UTF-16 code units. -/
abbrev JSString := List Nat

/-- UTF-16 code units of one character. -/
def utf16 (c : Char) : List Nat :=
  if c.toNat < 65536 then [c.toNat]
  else [55296 + (c.toNat - 65536) / 1024, 56320 + (c.toNat - 65536) % 1024]

/-- The JavaScript string written by a string literal. -/
def lit (s : String) : JSString := s.toList.flatMap utf16

/-- The code units that `String.prototype.trim` strips: the WhiteSpace and LineTerminator
code points of ECMAScript (TAB, LF, VT, FF, CR, SP, NBSP, U+1680, U+2000 to U+200A, U+2028,
U+2029, U+202F, U+205F, U+3000, U+FEFF). -/
def isWhiteSpace (c : Nat) : Bool :=
  c == 9 || c == 10 || c == 11 || c == 12 || c == 13 || c == 32 || c == 160 || c == 5760 ||
  (decide (8192 ≤ c) && decide (c ≤ 8202)) || c == 8232 || c == 8233 || c == 8239 ||
  c == 8287 || c == 12288 || c == 65279

/-- The method `String.prototype.trimStart`. -/
def trimStart (s : JSString) : JSString := s.dropWhile isWhiteSpace

/-- The method `String.prototype.trimEnd`. -/
def trimEnd (s : JSString) : JSString := (s.reverse.dropWhile isWhiteSpace).reverse

/-- The method `String.prototype.trim`: white space removed from both ends. -/
def trim (s : JSString) : JSString := trimEnd (trimStart s)

/-- Lines 12-14 of `App.jsx`:
`bullet.trim().length >= 10 && jobDescription.trim().length >= 30`. -/
def canSubmit (bullet jobDescription : JSString) : Bool :=
  decide ((trim bullet).length ≥ 10) && decide ((trim jobDescription).length ≥ 30)

/-! ## Values -/

/-- A JavaScript number, as far as this program can observe one: whether it is falsy
(zero or NaN) and the text `Number.prototype.toString` gives for it.  The program does no
arithmetic on the numbers of a response before it stores them. -/
structure JSNumber where
  isZeroOrNaN : Bool
  text : JSString

mutual
/-- The values `JSON.parse` produces, and `undefined`. -/
inductive JSValue where
  | undefined : JSValue
  | null : JSValue
  | bool (b : Bool) : JSValue
  | number (n : JSNumber) : JSValue
  | string (s : JSString) : JSValue
  | array (items : JSItems) : JSValue
  | object (props : JSProps) : JSValue
/-- The elements of an array. -/
inductive JSItems where
  | nil : JSItems
  | cons (head : JSValue) (tail : JSItems) : JSItems
/-- The members of an object, in the order of the JSON text. -/
inductive JSProps where
  | nil : JSProps
  | cons (key : JSString) (value : JSValue) (rest : JSProps) : JSProps
end

/-- An exception value: an `Error` (or `TypeError`, `SyntaxError`) with its `message`; an
exception without a message has the empty one, which `||` treats alike. -/
structure JSError where
  message : JSString
deriving DecidableEq

/-- The operation `ToBoolean`: what `||` and `&&` test. -/
def JSValue.toBoolean : JSValue → Bool
  | .undefined => false
  | .null => false
  | .bool b => b
  | .number n => !n.isZeroOrNaN
  | .string s => !s.isEmpty
  | .array _ => true
  | .object _ => true

/-- Own property `key` of an object with the given members; of two members with the same
key the later one counts, as in `JSON.parse`. -/
def JSProps.get (key : JSString) : JSProps → Option JSValue
  | .nil => none
  | .cons k v rest =>
    match JSProps.get key rest with
    | some w => some w
    | none => if k = key then some v else none

/-- The expression `err?.detail` (`api.js` line 12): the own property `detail` of an object, and
`undefined` for every other value (no prototype has a property of that name). -/
def getDetail (err : JSValue) : JSValue :=
  match err with
  | .object props => (props.get (lit "detail")).getD .undefined
  | _ => .undefined

/-- Whether a value is `undefined` or `null`. -/
def JSValue.isNullish : JSValue → Bool
  | .undefined => true
  | .null => true
  | _ => false

mutual
/-- The operation `ToString`, as applied by `new Error(message)` to its argument.  An object is
converted by `Object.prototype.toString`, unless it has an own member `toString`: that
member is not callable, neither is an own `valueOf`, the inherited `valueOf` returns the
object itself, and the conversion throws a `TypeError` with the message `cannot`. -/
def JSValue.toStr (cannot : JSString) : JSValue → Except JSError JSString
  | .undefined => .ok (lit "undefined")
  | .null => .ok (lit "null")
  | .bool b => .ok (if b then lit "true" else lit "false")
  | .number n => .ok n.text
  | .string s => .ok s
  | .array items => JSItems.join cannot items
  | .object props =>
    if (props.get (lit "toString")).isSome then .error ⟨cannot⟩
    else .ok (lit "[object Object]")
/-- The method `Array.prototype.join` with the separator `,`: `null` and `undefined` elements give the
empty string. -/
def JSItems.join (cannot : JSString) : JSItems → Except JSError JSString
  | .nil => .ok []
  | .cons h t =>
    match (if h.isNullish then .ok [] else JSValue.toStr cannot h) with
    | .error e => .error e
    | .ok a =>
      match t with
      | .nil => .ok a
      | .cons h2 t2 =>
        match JSItems.join cannot (.cons h2 t2) with
        | .error e => .error e
        | .ok b => .ok (a ++ lit "," ++ b)
end

/-! ## The API client (`api.js`) -/

/-- What the environment supplies: the variable `VITE_API_BASE` (`none` when unset) and the
message the engine gives the `TypeError` of a failed conversion to a primitive. -/
structure Runtime where
  viteApiBase : Option JSString
  cannotConvert : JSString

/-- Line 1 of `api.js`: `import.meta.env.VITE_API_BASE || "http://127.0.0.1:8000"`. -/
def API_BASE (rt : Runtime) : JSString :=
  match rt.viteApiBase with
  | some base => if base.isEmpty then lit "http://127.0.0.1:8000" else base
  | none => lit "http://127.0.0.1:8000"

/-- The argument of `optimizeBullet`. -/
structure Submission where
  bullet : JSString
  job_description : JSString
deriving DecidableEq

/-- One call of `fetch`: the address and the `method`, `headers` and `body` options.  The
body is kept as the value handed to `JSON.stringify`. -/
structure Request where
  url : JSString
  method : JSString
  headers : List (JSString × JSString)
  body : JSValue

/-- Lines 4-8 of `api.js`: the call of `fetch` made by `optimizeBullet`. -/
def optimizeBulletCall (rt : Runtime) (sub : Submission) : Request :=
  { url := API_BASE rt ++ lit "/api/optimize/"
    method := lit "POST"
    headers := [(lit "Content-Type", lit "application/json")]
    body := .object (.cons (lit "bullet") (.string sub.bullet)
              (.cons (lit "job_description") (.string sub.job_description) .nil)) }

/-- How a call of `fetch` settles: it rejects (no response), or it resolves to a response
with a status, whose `json()` resolves to the parsed body or rejects. -/
inductive FetchOutcome where
  | rejected (err : JSError) : FetchOutcome
  | response (status : Nat) (json : Except JSError JSValue) : FetchOutcome

/-- The getter `Response.ok`: the status is in the range 200-299. -/
def resOk (status : Nat) : Bool := decide (200 ≤ status) && decide (status ≤ 299)

/-- The text of a status code in a template literal. -/
def numeral (n : Nat) : JSString := lit (toString n)

/-- Lines 4 and 10-15 of `api.js`: what `optimizeBullet` produces once `fetch` has settled;
`.error` is a thrown exception. -/
def optimizeBulletResult (rt : Runtime) : FetchOutcome → Except JSError JSValue
  | .rejected e => .error e
  | .response status json =>
    if !resOk status then
      let err : JSValue :=
        match json with
        | .ok v => v
        | .error _ => .object .nil
      let message : JSValue :=
        if (getDetail err).toBoolean then getDetail err
        else .string (lit "Request failed (" ++ numeral status ++ lit ")")
      match message.toStr rt.cannotConvert with
      | .ok m => .error ⟨m⟩
      | .error e => .error e
    else json

/-- The whole of `optimizeBullet`, over a network given as a function. -/
def optimizeBullet (rt : Runtime) (net : Request → FetchOutcome) (sub : Submission) :
    Except JSError JSValue :=
  optimizeBulletResult rt (net (optimizeBulletCall rt sub))

/-- The message of the exception, when the call threw. -/
def thrownMessage : Except JSError JSValue → Option JSString
  | .error e => some e.message
  | .ok _ => none

/-! ## The form controller (`App.jsx`) -/

/-- The five state variables of `App` (lines 6-10). -/
structure State where
  bullet : JSString
  jobDescription : JSString
  loading : Bool
  result : JSValue
  error : JSString

/-- The initial values of lines 6-10. -/
def State.initial : State :=
  { bullet := [], jobDescription := [], loading := false, result := .null, error := [] }

/-- The guard of line 71, `result && ...`: a result is stored.  What lines 72-108 then
make of it in a render is `renderResults`. -/
def State.resultPresent (s : State) : Bool := s.result.toBoolean

/-- Line 69, `error && ...`: an error is shown. -/
def State.errorPresent (s : State) : Bool := !s.error.isEmpty

/-- Line 64: `disabled={!canSubmit || loading}`. -/
def submitDisabled (s : State) : Bool := !canSubmit s.bullet s.jobDescription || s.loading

/-- Lines 17-26: `onSubmit` up to its `await`; the new state and the argument passed to
`optimizeBullet`. -/
def onSubmitBegin (s : State) : State × Submission :=
  ({ s with error := [], result := .null, loading := true },
   { bullet := trim s.bullet, job_description := trim s.jobDescription })

/-- Lines 27-32: `onSubmit` after its `await`, on the outcome of `optimizeBullet`. -/
def onSubmitEnd (s : State) (outcome : Except JSError JSValue) : State :=
  match outcome with
  | .ok data => { s with result := data, loading := false }
  | .error err =>
    { s with error := if err.message.isEmpty then lit "Something failed" else err.message
             loading := false }

/-- A form instance: its state, every call of `fetch` made so far (oldest first) and the
number of those calls that have not settled yet. -/
structure Form where
  ui : State
  fetchLog : List Request
  inFlight : Nat

/-- A freshly mounted form. -/
def Form.initial : Form := { ui := State.initial, fetchLog := [], inFlight := 0 }

/-- What can happen to a form: an edit of either text area (lines 48 and 58), a submit
event, and the settling of a request. -/
inductive Event where
  | setBullet (value : JSString) : Event
  | setJobDescription (value : JSString) : Event
  | submit : Event
  | settle (outcome : FetchOutcome) : Event

/-- The submit handler at work: the state changes of `onSubmitBegin` and one call of
`fetch`. -/
def handleSubmit (rt : Runtime) (f : Form) : Form :=
  { ui := (onSubmitBegin f.ui).1
    fetchLog := f.fetchLog ++ [optimizeBulletCall rt (onSubmitBegin f.ui).2]
    inFlight := f.inFlight + 1 }

/-- One event, `none` when it cannot happen.  The form has no other submitter than the
button of line 64 and its text areas do not submit on Enter, so the browser dispatches a
submit event only while that button is enabled; the handler itself (`handleSubmit`) tests
nothing.  A request settles only if one is in flight. -/
def step (rt : Runtime) (f : Form) : Event → Option Form
  | .setBullet value => some { f with ui := { f.ui with bullet := value } }
  | .setJobDescription value => some { f with ui := { f.ui with jobDescription := value } }
  | .submit => if submitDisabled f.ui then none else some (handleSubmit rt f)
  | .settle outcome =>
    if f.inFlight = 0 then none
    else some { f with ui := onSubmitEnd f.ui (optimizeBulletResult rt outcome)
                       inFlight := f.inFlight - 1 }

/-- The forms that arise from the initial one by events. -/
inductive Reachable (rt : Runtime) : Form → Prop where
  | init : Reachable rt Form.initial
  | next (f : Form) (ev : Event) (g : Form) :
      Reachable rt f → step rt f ev = some g → Reachable rt g

/-- A text has no white space at either end. -/
def isTrimmed (s : JSString) : Bool :=
  (match s.head? with
    | some c => !isWhiteSpace c
    | none => true) &&
  (match s.getLast? with
    | some c => !isWhiteSpace c
    | none => true)

/-- The constraints of the data model on a submission. -/
def Submission.valid (sub : Submission) : Prop :=
  isTrimmed sub.bullet = true ∧ 10 ≤ sub.bullet.length ∧
  isTrimmed sub.job_description = true ∧ 30 ≤ sub.job_description.length

instance (sub : Submission) : Decidable sub.valid := by
  unfold Submission.valid
  infer_instance

/-- The environment used in the examples: no `VITE_API_BASE`, the message of V8. -/
def sampleRuntime : Runtime :=
  { viteApiBase := none, cannotConvert := lit "Cannot convert object to primitive value" }

/-! ## The invariant of the form -/

/-- What holds of every reachable form: the requests in flight are one while `loading` and
none otherwise; while `loading` neither a result nor an error is stored; never both are;
and every call of `fetch` was made for a valid submission. -/
def Form.Inv (rt : Runtime) (f : Form) : Prop :=
  f.inFlight = (if f.ui.loading then 1 else 0) ∧
  (f.ui.loading = true → f.ui.result = JSValue.null ∧ f.ui.error = []) ∧
  (f.ui.result = JSValue.null ∨ f.ui.error = []) ∧
  (∀ req ∈ f.fetchLog, ∃ sub : Submission, req = optimizeBulletCall rt sub ∧ sub.valid)

/-- The form after a list of events, an event that cannot happen being skipped. -/
def Form.after (rt : Runtime) (events : List Event) : Form :=
  events.foldl (fun f ev => (step rt f ev).getD f) Form.initial

/-- The member `detail` of the body of a response, when that body parses as JSON to an
object that has one. -/
def detailField : Except JSError JSValue → Option JSValue
  | .ok (.object props) => props.get (lit "detail")
  | _ => none

/-- The `detail` text field of the body of a response, when it has one. -/
def detailText (json : Except JSError JSValue) : Option JSString :=
  match detailField json with
  | some (.string d) => some d
  | _ => none

/-- The generic message of `api.js` line 12. -/
def requestFailed (status : Nat) : JSString :=
  lit "Request failed (" ++ numeral status ++ lit ")"

/-- The object `{bullet, job_description}`. -/
def submissionBody (bullet job_description : JSString) : JSValue :=
  .object (.cons (lit "bullet") (.string bullet)
    (.cons (lit "job_description") (.string job_description) .nil))

/-- A body `{"detail": value}`. -/
def detailBody (value : JSValue) : JSValue :=
  .object (.cons (lit "detail") value .nil)

/-- The bullet of the examples. -/
def sampleBullet : JSString := lit "  Built REST APIs to validate healthcare claims data "

/-- The job description of the examples (40 characters between the blanks). -/
def sampleJob : JSString := lit " Backend engineer: REST APIs, Python, AWS \n"

/-- The events up to a first submission of the sample texts. -/
def sampleSubmit : List Event :=
  [Event.setBullet sampleBullet, Event.setJobDescription sampleJob, Event.submit]

/-- A successful response of the service. -/
def sampleData : JSValue :=
  .object (.cons (lit "optimized_bullet") (.string (lit "Developed and deployed REST APIs..."))
    (.cons (lit "similarity") (.number { isZeroOrNaN := false, text := lit "0.82" })
    (.cons (lit "matched_keywords")
      (.array (.cons (.string (lit "REST")) (.cons (.string (lit "API")) .nil)))
    (.cons (lit "missing_keywords") (.array (.cons (.string (lit "AWS")) .nil)) .nil))))

/-! ## The render of the result (`App.jsx` lines 71-108) -/

/-- A property read such as `result.similarity`: the own member of an object, and
`undefined` for every other value that is not nullish (no prototype, string or array has a
property of one of the four names read in lines 74-97). -/
def JSValue.member (key : JSString) : JSValue → JSValue
  | .object props => (props.get key).getD .undefined
  | _ => .undefined

/-- Whether a value converts to a primitive without a `TypeError`: the conversion that
`result.similarity * 100` and the key of `<li key={k}>` apply fails on the same objects as
`ToString`, those with an own member `toString`, alone or inside arrays. -/
def JSValue.convertible (v : JSValue) : Bool :=
  match v.toStr [] with
  | .ok _ => true
  | .error _ => false

mutual
/-- Whether React accepts a value as a child: texts and numbers are rendered, `null`,
`undefined` and booleans render nothing, an array is rendered element by element, and a
plain object makes the render throw. -/
def JSValue.validChild : JSValue → Bool
  | .object _ => false
  | .array items => JSItems.validChildren items
  | _ => true
/-- Every element of an array is accepted as a child. -/
def JSItems.validChildren : JSItems → Bool
  | .nil => true
  | .cons h t => JSValue.validChild h && JSItems.validChildren t
end

/-- The callback of lines 86 and 97, `(k) => <li key={k}>{k}</li>`, over the elements of
an array: each element is converted to a key and rendered as a child. -/
def JSItems.renderItems : JSItems → Bool
  | .nil => true
  | .cons k rest => k.convertible && k.validChild && JSItems.renderItems rest

/-- The number of elements of an array. -/
def JSItems.length : JSItems → Nat
  | .nil => 0
  | .cons _ rest => JSItems.length rest + 1

/-- The property `length` of a value that is not nullish. -/
def JSValue.lengthOf : JSValue → JSValue
  | .string s => .number { isZeroOrNaN := s.length == 0, text := numeral s.length }
  | .array items =>
    .number { isZeroOrNaN := items.length == 0, text := numeral items.length }
  | .object props => (props.get (lit "length")).getD .undefined
  | _ => .undefined

/-- Lines 85-89 and 96-100, `list.length ? list.map(...) : <li>...</li>`: whether they
evaluate and render without throwing.  Reading `length` of `null` or `undefined` throws; a
truthy `length` leads to `list.map`, which is a function on arrays only. -/
def keywordListRenders (list : JSValue) : Bool :=
  match list with
  | .undefined => false
  | .null => false
  | .array items => if list.lengthOf.toBoolean then items.renderItems else true
  | other => !other.lengthOf.toBoolean

/-- What a render makes of lines 71-108: no result panel, the result panel, or an exception
(React then unmounts the form, there being no error boundary). -/
inductive PanelOutcome where
  | absent : PanelOutcome
  | shown : PanelOutcome
  | throws : PanelOutcome
deriving DecidableEq

/-- Lines 71-108: with a falsy `result` the panel is not rendered (of the falsy values
React prints only the number zero, as the text `0`); with a truthy one the
four expressions of lines 74, 79, 85-89 and 96-100 are evaluated and rendered, and any of
them may throw.  The texts shown are not modelled, only whether the render completes. -/
def renderResults (result : JSValue) : PanelOutcome :=
  if !result.toBoolean then .absent
  else if (result.member (lit "optimized_bullet")).validChild &&
      (result.member (lit "similarity")).convertible &&
      keywordListRenders (result.member (lit "matched_keywords")) &&
      keywordListRenders (result.member (lit "missing_keywords")) then .shown
  else .throws

/-- An array of texts. -/
def JSItems.allText : JSItems → Bool
  | .nil => true
  | .cons (.string _) rest => JSItems.allText rest
  | .cons _ _ => false

/-- A value is a text. -/
def JSValue.isText : JSValue → Bool
  | .string _ => true
  | _ => false

/-- A value is a number. -/
def JSValue.isNumber : JSValue → Bool
  | .number _ => true
  | _ => false

/-- A value is an array of texts. -/
def JSValue.isTextList : JSValue → Bool
  | .array items => items.allText
  | _ => false

/-- The OptimizationResult of the data model: an object whose `optimized_bullet` is a text,
whose `similarity` is a number and whose `matched_keywords` and `missing_keywords` are
arrays of texts.  (That the number lies between 0 and 1 is not expressed.) -/
def isOptimizationResult (data : JSValue) : Bool :=
  match data with
  | .object _ =>
    (data.member (lit "optimized_bullet")).isText &&
    (data.member (lit "similarity")).isNumber &&
    (data.member (lit "matched_keywords")).isTextList &&
    (data.member (lit "missing_keywords")).isTextList
  | _ => false

/-! ## Lemmas on trimming -/

theorem trim_eq_nil_of_all_whiteSpace (s : JSString)
    (h : ∀ c ∈ s, isWhiteSpace c = true) : trim s = [] := by
  have h1 : trimStart s = [] := by
    unfold trimStart
    exact List.dropWhile_eq_nil_iff.mpr h
  simp [trim, h1, trimEnd]

theorem trimEnd_initial (s : JSString) : trimEnd s <+: s := by
  have h : s.reverse.dropWhile isWhiteSpace <:+ s.reverse := List.dropWhile_suffix isWhiteSpace
  have h2 := List.reverse_prefix.mpr h
  simpa [trimEnd] using h2

theorem trimEnd_getLast?_not (s : JSString) (c : Nat) (h : (trimEnd s).getLast? = some c) :
    isWhiteSpace c = false := by
  have h1 := List.head?_dropWhile_not isWhiteSpace s.reverse
  simp only [trimEnd, List.getLast?_reverse] at h
  rw [h] at h1
  simpa using h1

theorem trimStart_head?_not (s : JSString) (c : Nat) (h : (trimStart s).head? = some c) :
    isWhiteSpace c = false := by
  have h1 := List.head?_dropWhile_not isWhiteSpace s
  unfold trimStart at h
  rw [h] at h1
  simpa using h1

theorem trim_head?_not (s : JSString) (c : Nat) (hc : (trim s).head? = some c) :
    isWhiteSpace c = false := by
  obtain ⟨r, hr⟩ := trimEnd_initial (trimStart s)
  apply trimStart_head?_not s c
  rw [← hr]
  unfold trim at hc
  cases hu : trimEnd (trimStart s) with
  | nil => rw [hu] at hc; simp at hc
  | cons a u => rw [hu] at hc; simpa using hc

theorem isTrimmed_trim (s : JSString) : isTrimmed (trim s) = true := by
  unfold isTrimmed
  rw [Bool.and_eq_true]
  refine ⟨?_, ?_⟩
  · cases hh : (trim s).head? with
    | none => rfl
    | some c => simp [trim_head?_not s c hh]
  · cases hh : (trim s).getLast? with
    | none => rfl
    | some c => simp [trimEnd_getLast?_not (trimStart s) c hh]

theorem canSubmit_valid (s : State) (h : canSubmit s.bullet s.jobDescription = true) :
    (onSubmitBegin s).2.valid := by
  simp only [canSubmit, Bool.and_eq_true, decide_eq_true_eq] at h
  exact ⟨isTrimmed_trim _, h.1, isTrimmed_trim _, h.2⟩

theorem submit_enabled (rt : Runtime) (f g : Form) (h : step rt f Event.submit = some g) :
    canSubmit f.ui.bullet f.ui.jobDescription = true ∧ f.ui.loading = false ∧
      g = handleSubmit rt f := by
  unfold step at h
  by_cases hd : submitDisabled f.ui = true
  · simp [hd] at h
  · simp only [hd, Bool.false_eq_true, if_false, Option.some.injEq] at h
    simp only [submitDisabled, Bool.or_eq_true, Bool.not_eq_true', not_or,
      Bool.not_eq_false, Bool.not_eq_true] at hd
    exact ⟨hd.1, hd.2, h.symm⟩

theorem inv_initial (rt : Runtime) : Form.Inv rt Form.initial := by
  simp [Form.Inv, Form.initial, State.initial]

theorem inv_step (rt : Runtime) (f g : Form) (ev : Event) (hf : Form.Inv rt f)
    (h : step rt f ev = some g) : Form.Inv rt g := by
  obtain ⟨h1, h2, h3, h4⟩ := hf
  cases ev with
  | setBullet value =>
    simp only [step, Option.some.injEq] at h
    subst h
    exact ⟨h1, h2, h3, h4⟩
  | setJobDescription value =>
    simp only [step, Option.some.injEq] at h
    subst h
    exact ⟨h1, h2, h3, h4⟩
  | submit =>
    obtain ⟨hc, hl, hg⟩ := submit_enabled rt f g h
    subst hg
    refine ⟨?_, ?_, ?_, ?_⟩
    · simp [handleSubmit, onSubmitBegin, h1, hl]
    · intro _
      simp [handleSubmit, onSubmitBegin]
    · left
      simp [handleSubmit, onSubmitBegin]
    · intro req hreq
      simp only [handleSubmit, List.mem_append, List.mem_singleton] at hreq
      rcases hreq with hreq | hreq
      · exact h4 req hreq
      · exact ⟨(onSubmitBegin f.ui).2, hreq, canSubmit_valid f.ui hc⟩
  | settle outcome =>
    unfold step at h
    by_cases h0 : f.inFlight = 0
    · simp [h0] at h
    · simp only [h0, if_false, Option.some.injEq] at h
      subst h
      have hl : f.ui.loading = true := by
        by_contra hn
        simp [hn] at h1
        exact h0 h1
      obtain ⟨hr, he⟩ := h2 hl
      cases ho : optimizeBulletResult rt outcome with
      | ok data =>
        refine ⟨?_, ?_, ?_, h4⟩
        · simp [onSubmitEnd, h1, hl]
        · intro hcontra
          simp [onSubmitEnd] at hcontra
        · right
          simp [onSubmitEnd, he]
      | error err =>
        refine ⟨?_, ?_, ?_, h4⟩
        · simp [onSubmitEnd, h1, hl]
        · intro hcontra
          simp [onSubmitEnd] at hcontra
        · left
          simp [onSubmitEnd, hr]

theorem inv_of_reachable (rt : Runtime) (f : Form) (h : Reachable rt f) : Form.Inv rt f := by
  induction h with
  | init => exact inv_initial rt
  | next f ev g _ hstep ih => exact inv_step rt f g ev ih hstep

/-! ## Lemmas on the API client and on reachability -/

theorem getDetail_parsed (json : Except JSError JSValue) :
    getDetail (match json with
      | .ok v => v
      | .error _ => JSValue.object JSProps.nil) = (detailField json).getD JSValue.undefined := by
  cases json with
  | error e => simp [getDetail, detailField, JSProps.get]
  | ok v => cases v <;> simp [getDetail, detailField]

theorem optimizeBulletResult_not_ok (rt : Runtime) (status : Nat)
    (json : Except JSError JSValue) (h : resOk status = false) :
    optimizeBulletResult rt (FetchOutcome.response status json) =
      (match (if ((detailField json).getD JSValue.undefined).toBoolean
          then (detailField json).getD JSValue.undefined
          else JSValue.string (requestFailed status)).toStr rt.cannotConvert with
        | .ok m => Except.error ⟨m⟩
        | .error e => Except.error e) := by
  simp only [optimizeBulletResult, h, Bool.not_false, if_true, getDetail_parsed, requestFailed]

theorem join_nil (cannot : JSString) : JSItems.join cannot JSItems.nil = .ok [] := rfl

theorem join_single (cannot : JSString) (k : JSValue) :
    JSItems.join cannot (JSItems.cons k JSItems.nil) =
      (match (if k.isNullish then .ok [] else JSValue.toStr cannot k) with
        | .error e => .error e
        | .ok a => .ok a) := by
  delta JSItems.join JSValue.toStr
  rfl

theorem join_cons (cannot : JSString) (k k2 : JSValue) (rest : JSItems) :
    JSItems.join cannot (JSItems.cons k (JSItems.cons k2 rest)) =
      (match (if k.isNullish then .ok [] else JSValue.toStr cannot k) with
        | .error e => .error e
        | .ok a =>
          match JSItems.join cannot (JSItems.cons k2 rest) with
          | .error e => .error e
          | .ok b => .ok (a ++ lit "," ++ b)) := by
  delta JSItems.join JSValue.toStr
  rfl

mutual
theorem toStr_error (cannot : JSString) :
    ∀ (v : JSValue) (e : JSError), JSValue.toStr cannot v = .error e → e = ⟨cannot⟩
  | .undefined, e, h => by simp [JSValue.toStr] at h
  | .null, e, h => by simp [JSValue.toStr] at h
  | .bool b, e, h => by simp [JSValue.toStr] at h
  | .number n, e, h => by simp [JSValue.toStr] at h
  | .string s, e, h => by simp [JSValue.toStr] at h
  | .array items, e, h => by
    rw [JSValue.toStr] at h
    exact join_error cannot items e h
  | .object props, e, h => by
    rw [JSValue.toStr] at h
    split at h
    · simp only [Except.error.injEq] at h
      exact h.symm
    · simp at h
theorem join_error (cannot : JSString) :
    ∀ (items : JSItems) (e : JSError), JSItems.join cannot items = .error e → e = ⟨cannot⟩
  | .nil, e, h => by simp [join_nil] at h
  | .cons k .nil, e, h => by
    rw [join_single] at h
    split at h
    · rename_i e1 h1
      simp only [Except.error.injEq] at h
      subst h
      split at h1
      · simp at h1
      · exact toStr_error cannot k _ h1
    · simp at h
  | .cons k (.cons k2 rest), e, h => by
    rw [join_cons] at h
    split at h
    · rename_i e1 h1
      simp only [Except.error.injEq] at h
      subst h
      split at h1
      · simp at h1
      · exact toStr_error cannot k _ h1
    · split at h
      · rename_i e2 hj
        simp only [Except.error.injEq] at h
        subst h
        exact join_error cannot (.cons k2 rest) _ hj
      · simp at h
end

theorem reachable_after (rt : Runtime) (events : List Event) :
    Reachable rt (Form.after rt events) := by
  induction events using List.reverseRecOn with
  | nil => exact Reachable.init
  | append_singleton evs ev ih =>
    have h : Form.after rt (evs ++ [ev]) =
        (step rt (Form.after rt evs) ev).getD (Form.after rt evs) := by
      simp [Form.after, List.foldl_append]
    rw [h]
    cases hs : step rt (Form.after rt evs) ev with
    | none => simpa using ih
    | some g => exact Reachable.next _ ev g ih hs

/-! ## Lemmas on the render of the result -/

theorem renderItems_of_allText :
    ∀ items : JSItems, items.allText = true → items.renderItems = true
  | .nil, _ => rfl
  | .cons k rest, h => by
    cases k with
    | string s =>
      have ih := renderItems_of_allText rest (by simpa [JSItems.allText] using h)
      simp [JSItems.renderItems, JSValue.convertible, JSValue.toStr, JSValue.validChild, ih]
    | undefined => simp [JSItems.allText] at h
    | null => simp [JSItems.allText] at h
    | bool b => simp [JSItems.allText] at h
    | number n => simp [JSItems.allText] at h
    | array xs => simp [JSItems.allText] at h
    | object ps => simp [JSItems.allText] at h

theorem validChild_of_isText (v : JSValue) (h : v.isText = true) : v.validChild = true := by
  cases v <;> simp [JSValue.isText] at h
  simp [JSValue.validChild]

theorem convertible_of_isNumber (v : JSValue) (h : v.isNumber = true) :
    v.convertible = true := by
  cases v <;> simp [JSValue.isNumber] at h
  simp [JSValue.convertible, JSValue.toStr]

theorem keywordListRenders_of_isTextList (v : JSValue) (h : v.isTextList = true) :
    keywordListRenders v = true := by
  cases v <;> simp [JSValue.isTextList] at h
  rename_i items
  simp only [keywordListRenders]
  split
  · exact renderItems_of_allText items h
  · rfl

theorem renderResults_of_isOptimizationResult (data : JSValue)
    (h : isOptimizationResult data = true) :
    data.toBoolean = true ∧ renderResults data = PanelOutcome.shown := by
  cases data <;> simp [isOptimizationResult] at h
  rename_i props
  obtain ⟨⟨⟨h1, h2⟩, h3⟩, h4⟩ := h
  refine ⟨rfl, ?_⟩
  simp [renderResults, JSValue.toBoolean, validChild_of_isText _ h1,
    convertible_of_isNumber _ h2, keywordListRenders_of_isTextList _ h3,
    keywordListRenders_of_isTextList _ h4]

theorem renderResults_of_falsy (data : JSValue) (h : data.toBoolean = false) :
    renderResults data = PanelOutcome.absent := by
  simp [renderResults, h]

/-! ## Properties -/

/-- C1: `canSubmit` is true exactly when the trimmed bullet has at least 10 code units and
the trimmed job description at least 30; and a bullet made of white space only gives
`canSubmit = false` whatever the job description. -/
theorem canSubmit_iff (bullet jobDescription : JSString) :
    (canSubmit bullet jobDescription = true ↔
        10 ≤ (trim bullet).length ∧ 30 ≤ (trim jobDescription).length) ∧
      ((∀ c ∈ bullet, isWhiteSpace c = true) → canSubmit bullet jobDescription = false) := by
  refine ⟨?_, ?_⟩
  · simp [canSubmit]
  · intro h
    simp [canSubmit, trim_eq_nil_of_all_whiteSpace bullet h]

/-- C1 at a bullet of three blanks and a tab, with a long job description. -/
theorem canSubmit_iff_witness :
    (∀ c ∈ lit "   \t", isWhiteSpace c = true) ∧
      canSubmit (lit "   \t") (lit "Looking for a backend engineer with REST experience") = false :=
  ⟨by decide,
    (canSubmit_iff (lit "   \t")
      (lit "Looking for a backend engineer with REST experience")).2 (by decide)⟩


/-- C2, as stated, fails.  On a 422 response whose body is `{"detail": ""}` the body
carries a `detail` text field (the empty text), yet the message is the generic one, not that
text; on a 422 response whose body is `{"detail": [{"msg": "field required"}]}` the body
carries no `detail` text field, yet the message is `[object Object]`, not the generic one. -/
theorem optimizeBullet_detail_counterexample :
    (resOk 422 = false ∧
      detailText (.ok (detailBody (.string []))) = some [] ∧
      thrownMessage (optimizeBulletResult sampleRuntime
        (.response 422 (.ok (detailBody (.string []))))) = some (lit "Request failed (422)") ∧
      lit "Request failed (422)" ≠ []) ∧
    (detailText (.ok (detailBody (.array (.cons
        (.object (.cons (lit "msg") (.string (lit "field required")) .nil)) .nil)))) = none ∧
      thrownMessage (optimizeBulletResult sampleRuntime
        (.response 422 (.ok (detailBody (.array (.cons
          (.object (.cons (lit "msg") (.string (lit "field required")) .nil)) .nil))))))
        = some (lit "[object Object]") ∧
      lit "[object Object]" ≠ requestFailed 422) := by
  decide

/-- C2, amended: on a response with a non-2xx status `optimizeBullet` throws an error whose
message is the `detail` text of the body when the body parses as JSON and carries a
non-empty `detail` text field, and is `Request failed (<status>)` when the body does not
parse, carries no `detail` member, or carries a falsy one (`null`, `false`, zero, the empty
text).  A `detail` that is truthy and not a text is handed to `new Error`: when its
conversion to a string succeeds, the string is the message (`[object Object]` for an object
without an own member `toString`); when the conversion throws (an object with an own member
`toString`, alone or inside arrays), `optimizeBullet` throws that `TypeError` of the engine
instead. -/
theorem optimizeBullet_error_message (rt : Runtime) (status : Nat)
    (json : Except JSError JSValue) (h : resOk status = false) :
    (∀ d, detailText json = some d → d ≠ [] →
        optimizeBulletResult rt (.response status json) = .error ⟨d⟩) ∧
    ((∀ v, detailField json = some v → v.toBoolean = false) →
        optimizeBulletResult rt (.response status json) = .error ⟨requestFailed status⟩) ∧
    (∀ v m, detailField json = some v → v.toBoolean = true →
        v.toStr rt.cannotConvert = .ok m →
        optimizeBulletResult rt (.response status json) = .error ⟨m⟩) ∧
    (∀ v e, detailField json = some v → v.toBoolean = true →
        v.toStr rt.cannotConvert = .error e →
        optimizeBulletResult rt (.response status json) = .error ⟨rt.cannotConvert⟩) ∧
    (∀ props, detailField json = some (.object props) →
        props.get (lit "toString") = none →
        optimizeBulletResult rt (.response status json) = .error ⟨lit "[object Object]"⟩) ∧
    (∀ props, detailField json = some (.object props) →
        (props.get (lit "toString")).isSome = true →
        optimizeBulletResult rt (.response status json) = .error ⟨rt.cannotConvert⟩) := by
  rw [optimizeBulletResult_not_ok rt status json h]
  refine ⟨?_, ?_, ?_, ?_, ?_, ?_⟩
  · intro d hd hne
    have hf : detailField json = some (.string d) := by
      unfold detailText at hd
      split at hd
      · rename_i d2 heq
        simp only [Option.some.injEq] at hd
        rw [heq, hd]
      · simp at hd
    have ht : (JSValue.string d).toBoolean = true := by
      cases d with
      | nil => exact absurd rfl hne
      | cons a l => rfl
    simp [hf, ht, JSValue.toStr]
  · intro hv
    cases hf : detailField json with
    | none => simp [JSValue.toBoolean, JSValue.toStr]
    | some v => simp [hv v hf, JSValue.toStr]
  · intro v m hf ht hm
    simp [hf, ht, hm]
  · intro v e hf ht he
    have hmsg := toStr_error rt.cannotConvert v e he
    simp [hf, ht, he, hmsg]
  · intro props hf hnone
    simp [hf, JSValue.toBoolean, JSValue.toStr, hnone]
  · intro props hf hsome
    simp [hf, JSValue.toBoolean, JSValue.toStr, hsome]

/-- C2 at the two scenarios of the specification, status 422 with the body
`{"detail": "bullet too short"}` and status 500 with a body that does not parse, and at
status 400 with the body `{"detail": {"toString": 1}}`, whose conversion throws. -/
theorem optimizeBullet_error_message_witness :
    optimizeBulletResult sampleRuntime
        (.response 422 (.ok (detailBody (.string (lit "bullet too short"))))) =
        .error ⟨lit "bullet too short"⟩ ∧
      optimizeBulletResult sampleRuntime
        (.response 500 (.error ⟨lit "Unexpected token < in JSON at position 0"⟩)) =
        .error ⟨lit "Request failed (500)"⟩ ∧
      optimizeBulletResult sampleRuntime
        (.response 400 (.ok (detailBody (.object (.cons (lit "toString")
          (.number { isZeroOrNaN := false, text := lit "1" }) .nil))))) =
        .error ⟨lit "Cannot convert object to primitive value"⟩ :=
  ⟨(optimizeBullet_error_message sampleRuntime 422
      (.ok (detailBody (.string (lit "bullet too short")))) (by decide)).1
      (lit "bullet too short") (by decide) (by decide),
   (optimizeBullet_error_message sampleRuntime 500
      (.error ⟨lit "Unexpected token < in JSON at position 0"⟩) (by decide)).2.1
      (by intro v hv; simp [detailField] at hv),
   (optimizeBullet_error_message sampleRuntime 400
      (.ok (detailBody (.object (.cons (lit "toString")
        (.number { isZeroOrNaN := false, text := lit "1" }) .nil)))) (by decide)).2.2.2.2.2
      (.cons (lit "toString") (.number { isZeroOrNaN := false, text := lit "1" }) .nil)
      rfl (by decide)⟩

/-- C3: in every state of a form reachable from the initial one by edits, submit events
and settled requests, a result and an error are never both present. -/
theorem result_error_exclusive (rt : Runtime) (f : Form) (h : Reachable rt f) :
    ¬ (f.ui.resultPresent = true ∧ f.ui.errorPresent = true) := by
  obtain ⟨_, _, h3, _⟩ := inv_of_reachable rt f h
  rintro ⟨hr, he⟩
  rcases h3 with h3 | h3
  · simp [State.resultPresent, h3, JSValue.toBoolean] at hr
  · simp [State.errorPresent, h3] at he

/-- C3 at the form whose first request failed with status 500 and whose second request
succeeded. -/
theorem result_error_exclusive_witness :
    ¬ ((Form.after sampleRuntime (sampleSubmit ++
          [Event.settle (.response 500 (.error ⟨lit "Unexpected end of JSON input"⟩)),
           Event.submit, Event.settle (.response 200 (.ok sampleData))])).ui.resultPresent = true ∧
        (Form.after sampleRuntime (sampleSubmit ++
          [Event.settle (.response 500 (.error ⟨lit "Unexpected end of JSON input"⟩)),
           Event.submit, Event.settle (.response 200 (.ok sampleData))])).ui.errorPresent = true) :=
  result_error_exclusive sampleRuntime _ (reachable_after sampleRuntime _)

/-- C4, as stated, fails: the sample submission is answered with status 200 and the body
`null`; the request settles, `optimizeBullet` returns `null`, and no result is present
afterwards: the guard of line 71 fails and no panel is rendered.  Answered with status 200
and the body `{}` instead, the guard holds but the render of lines 72-108 throws. -/
theorem onSubmit_success_counterexample :
    resOk 200 = true ∧
      (Form.after sampleRuntime sampleSubmit).inFlight = 1 ∧
      (step sampleRuntime (Form.after sampleRuntime sampleSubmit)
        (Event.settle (.response 200 (.ok .null)))).map (fun g => g.ui.resultPresent)
        = some false ∧
      (step sampleRuntime (Form.after sampleRuntime sampleSubmit)
        (Event.settle (.response 200 (.ok .null)))).map (fun g => renderResults g.ui.result)
        = some PanelOutcome.absent ∧
      (step sampleRuntime (Form.after sampleRuntime sampleSubmit)
        (Event.settle (.response 200 (.ok (.object .nil))))).map
          (fun g => renderResults g.ui.result)
        = some PanelOutcome.throws := by
  decide

/-- C4, amended: when a request of a reachable form settles with a 2xx status and a body
that parses as JSON, `optimizeBullet` returns the parsed body, and `onSubmit` stores that
body in `result`, leaves the error absent and sets `loading` to false.  In the render of
that state the result is present (its panel is rendered) whenever the body is an
OptimizationResult, and it is absent (no panel is rendered) whenever the body is falsy
(`null`, `false`, zero, the empty text); for every other body the guard of line 71 holds and lines 72-108 either render
the panel or throw, as `renderResults` tells. -/
theorem onSubmit_success (rt : Runtime) (f g : Form) (status : Nat) (data : JSValue)
    (hf : Reachable rt f) (hs : resOk status = true)
    (hg : step rt f (Event.settle (.response status (.ok data))) = some g) :
    optimizeBulletResult rt (.response status (.ok data)) = .ok data ∧
      g.ui.result = data ∧ g.ui.resultPresent = data.toBoolean ∧
      g.ui.error = [] ∧ g.ui.errorPresent = false ∧ g.ui.loading = false ∧
      (isOptimizationResult data = true →
        g.ui.resultPresent = true ∧ renderResults g.ui.result = PanelOutcome.shown) ∧
      (data.toBoolean = false →
        g.ui.resultPresent = false ∧ renderResults g.ui.result = PanelOutcome.absent) ∧
      (data.toBoolean = true → renderResults g.ui.result ≠ PanelOutcome.absent) := by
  obtain ⟨h1, h2, _, _⟩ := inv_of_reachable rt f hf
  have hres : optimizeBulletResult rt (.response status (.ok data)) = .ok data := by
    simp [optimizeBulletResult, hs]
  unfold step at hg
  by_cases h0 : f.inFlight = 0
  · simp [h0] at hg
  · simp only [h0, if_false, Option.some.injEq] at hg
    subst hg
    have hl : f.ui.loading = true := by
      by_contra hn
      simp [hn] at h1
      exact h0 h1
    obtain ⟨_, he⟩ := h2 hl
    refine ⟨hres, ?_, ?_, ?_, ?_, ?_, ?_, ?_, ?_⟩
    · simp [hres, onSubmitEnd]
    · simp [hres, onSubmitEnd, State.resultPresent]
    · simp [hres, onSubmitEnd, he]
    · simp [hres, onSubmitEnd, State.errorPresent, he]
    · simp [hres, onSubmitEnd]
    · intro hd
      obtain ⟨ht, hshown⟩ := renderResults_of_isOptimizationResult data hd
      simp [hres, onSubmitEnd, State.resultPresent, ht, hshown]
    · intro hd
      simp [hres, onSubmitEnd, State.resultPresent, hd, renderResults_of_falsy data hd]
    · intro hd
      simp only [hres, onSubmitEnd, renderResults, hd]
      simp only [Bool.not_true, Bool.false_eq_true, if_false]
      split <;> simp

/-- C4 at the sample submission, answered with status 200 and the sample body, which is an
OptimizationResult. -/
theorem onSubmit_success_witness :
    isOptimizationResult sampleData = true ∧
      (Form.after sampleRuntime (sampleSubmit ++
        [Event.settle (.response 200 (.ok sampleData))])).ui.resultPresent = true ∧
      renderResults (Form.after sampleRuntime (sampleSubmit ++
        [Event.settle (.response 200 (.ok sampleData))])).ui.result = PanelOutcome.shown ∧
      (Form.after sampleRuntime (sampleSubmit ++
        [Event.settle (.response 200 (.ok sampleData))])).ui.errorPresent = false ∧
      (Form.after sampleRuntime (sampleSubmit ++
        [Event.settle (.response 200 (.ok sampleData))])).ui.loading = false :=
  have h := onSubmit_success sampleRuntime (Form.after sampleRuntime sampleSubmit)
    (Form.after sampleRuntime (sampleSubmit ++ [Event.settle (.response 200 (.ok sampleData))]))
    200 sampleData (reachable_after sampleRuntime sampleSubmit) (by decide) (by rfl)
  ⟨by decide, (h.2.2.2.2.2.2.1 (by decide)).1, (h.2.2.2.2.2.2.1 (by decide)).2,
    h.2.2.2.2.1, h.2.2.2.2.2.1⟩

/-- C5: `optimizeBullet` throws when `fetch` rejects and when the status is not 2xx; and
when a request of a reachable form settles and `optimizeBullet` throws, afterwards the
error is a non-empty text, no result is present and `loading` is false. -/
theorem onSubmit_failure (rt : Runtime) :
    (∀ e, optimizeBulletResult rt (.rejected e) = .error e) ∧
    (∀ status json, resOk status = false →
        ∃ err, optimizeBulletResult rt (.response status json) = .error err) ∧
    (∀ (f g : Form) (outcome : FetchOutcome) (err : JSError), Reachable rt f →
        step rt f (Event.settle outcome) = some g →
        optimizeBulletResult rt outcome = .error err →
        g.ui.error ≠ [] ∧ g.ui.errorPresent = true ∧
          g.ui.result = JSValue.null ∧ g.ui.resultPresent = false ∧
          g.ui.loading = false) := by
  refine ⟨fun e => rfl, ?_, ?_⟩
  · intro status json h
    rw [optimizeBulletResult_not_ok rt status json h]
    split
    · exact ⟨_, rfl⟩
    · exact ⟨_, rfl⟩
  · intro f g outcome err hf hg herr
    obtain ⟨h1, h2, _, _⟩ := inv_of_reachable rt f hf
    unfold step at hg
    by_cases h0 : f.inFlight = 0
    · simp [h0] at hg
    · simp only [h0, if_false, Option.some.injEq] at hg
      subst hg
      have hl : f.ui.loading = true := by
        by_contra hn
        simp [hn] at h1
        exact h0 h1
      obtain ⟨hr, _⟩ := h2 hl
      have hne : (if err.message.isEmpty = true then lit "Something failed"
          else err.message) ≠ [] := by
        by_cases hm : err.message.isEmpty = true
        · rw [if_pos hm]; decide
        · rw [if_neg hm]
          intro hnil
          apply hm
          rw [hnil]
          rfl
      have hp : (if err.message.isEmpty = true then lit "Something failed"
          else err.message).isEmpty = false := by
        cases hc : (if err.message.isEmpty = true then lit "Something failed"
          else err.message) with
        | nil => exact absurd hc hne
        | cons a l => rfl
      rw [herr]
      refine ⟨hne, ?_, hr, ?_, rfl⟩
      · show (!(if err.message.isEmpty = true then lit "Something failed"
          else err.message).isEmpty) = true
        rw [hp]
        rfl
      · show f.ui.result.toBoolean = false
        rw [hr]
        rfl

/-- C5 at the sample submission, answered with status 503 and a body that is not JSON. -/
theorem onSubmit_failure_witness :
    (Form.after sampleRuntime (sampleSubmit ++
        [Event.settle (.response 503 (.error ⟨lit "Unexpected token < in JSON"⟩))])).ui.error
        ≠ [] ∧
      (Form.after sampleRuntime (sampleSubmit ++
        [Event.settle (.response 503 (.error ⟨lit "Unexpected token < in JSON"⟩))])).ui.result
        = JSValue.null :=
  have h := (onSubmit_failure sampleRuntime).2.2 (Form.after sampleRuntime sampleSubmit)
    (Form.after sampleRuntime (sampleSubmit ++
      [Event.settle (.response 503 (.error ⟨lit "Unexpected token < in JSON"⟩))]))
    (.response 503 (.error ⟨lit "Unexpected token < in JSON"⟩))
    ⟨lit "Request failed (503)"⟩
    (reachable_after sampleRuntime sampleSubmit) (by rfl) (by rfl)
  ⟨h.1, h.2.2.1⟩

/-- C6: from every state, whatever result and error it holds, the submit handler moves the
form, before the request settles, to a state with no result, no error and `loading` true,
and leaves both texts as they were. -/
theorem onSubmit_clears (rt : Runtime) (f : Form) :
    (handleSubmit rt f).ui = (onSubmitBegin f.ui).1 ∧
      (onSubmitBegin f.ui).1.result = JSValue.null ∧
      (onSubmitBegin f.ui).1.resultPresent = false ∧
      (onSubmitBegin f.ui).1.error = [] ∧
      (onSubmitBegin f.ui).1.errorPresent = false ∧
      (onSubmitBegin f.ui).1.loading = true ∧
      (onSubmitBegin f.ui).1.bullet = f.ui.bullet ∧
      (onSubmitBegin f.ui).1.jobDescription = f.ui.jobDescription :=
  ⟨rfl, rfl, rfl, rfl, rfl, rfl, rfl, rfl⟩

/-- C7: the submit handler makes exactly one call of `fetch`: a POST to
`<API base>/api/optimize/` with the one header `Content-Type: application/json` and the body
`{bullet: trim(bullet), job_description: trim(jobDescription)}`; it is also the call that
`optimizeBullet` makes for the trimmed pair. -/
theorem onSubmit_request (rt : Runtime) (f : Form) :
    (handleSubmit rt f).fetchLog = f.fetchLog ++
        [{ url := API_BASE rt ++ lit "/api/optimize/"
           method := lit "POST"
           headers := [(lit "Content-Type", lit "application/json")]
           body := submissionBody (trim f.ui.bullet) (trim f.ui.jobDescription) }] ∧
      (handleSubmit rt f).inFlight = f.inFlight + 1 ∧
      (onSubmitBegin f.ui).2 =
        { bullet := trim f.ui.bullet, job_description := trim f.ui.jobDescription } :=
  ⟨rfl, rfl, rfl⟩

/-- C8: every call of `fetch` made by a reachable form was made by `optimizeBullet` for a
submission whose bullet is trimmed and has at least 10 code units and whose job description
is trimmed and has at least 30; and a form in which `canSubmit` is false accepts no submit
event, and no event makes it call `fetch`. -/
theorem submissions_valid (rt : Runtime) :
    (∀ f : Form, Reachable rt f →
        ∀ req ∈ f.fetchLog, ∃ sub : Submission, req = optimizeBulletCall rt sub ∧
          isTrimmed sub.bullet = true ∧ 10 ≤ sub.bullet.length ∧
          isTrimmed sub.job_description = true ∧ 30 ≤ sub.job_description.length) ∧
    (∀ f : Form, canSubmit f.ui.bullet f.ui.jobDescription = false →
        step rt f Event.submit = none ∧
          ∀ (ev : Event) (g : Form), step rt f ev = some g → g.fetchLog = f.fetchLog) := by
  refine ⟨?_, ?_⟩
  · intro f hf req hreq
    exact (inv_of_reachable rt f hf).2.2.2 req hreq
  · intro f hc
    have hsub : step rt f Event.submit = none := by
      simp [step, submitDisabled, hc]
    refine ⟨hsub, ?_⟩
    intro ev g hg
    cases ev with
    | setBullet value =>
      simp only [step, Option.some.injEq] at hg
      subst hg
      rfl
    | setJobDescription value =>
      simp only [step, Option.some.injEq] at hg
      subst hg
      rfl
    | submit => rw [hsub] at hg; simp at hg
    | settle outcome =>
      unfold step at hg
      by_cases h0 : f.inFlight = 0
      · simp [h0] at hg
      · simp only [h0, if_false, Option.some.injEq] at hg
        subst hg
        rfl

/-- C8 at the form after the sample submission (its one request carries the trimmed sample
texts) and at the initial form (empty texts, no submit event). -/
theorem submissions_valid_witness :
    (∃ sub : Submission,
        optimizeBulletCall sampleRuntime
          { bullet := trim sampleBullet, job_description := trim sampleJob } =
          optimizeBulletCall sampleRuntime sub ∧
        isTrimmed sub.bullet = true ∧ 10 ≤ sub.bullet.length ∧
        isTrimmed sub.job_description = true ∧ 30 ≤ sub.job_description.length) ∧
      step sampleRuntime Form.initial Event.submit = none :=
  ⟨(submissions_valid sampleRuntime).1 (Form.after sampleRuntime sampleSubmit)
      (reachable_after sampleRuntime sampleSubmit)
      (optimizeBulletCall sampleRuntime
        { bullet := trim sampleBullet, job_description := trim sampleJob })
      (by
        have h : (Form.after sampleRuntime sampleSubmit).fetchLog =
            [optimizeBulletCall sampleRuntime
              { bullet := trim sampleBullet, job_description := trim sampleJob }] := by rfl
        rw [h]
        exact List.mem_singleton.mpr rfl),
   ((submissions_valid sampleRuntime).2 Form.initial (by decide)).1⟩

/-- C9: in every reachable form at most one request is in flight; and while one is,
`loading` is true, the submit button is disabled and no submit event is accepted, so that
no further call of `fetch` is made before the request settles.  Conversely `loading` is
true only while a request is in flight. -/
theorem single_flight (rt : Runtime) (f : Form) (h : Reachable rt f) :
    f.inFlight ≤ 1 ∧
      (f.ui.loading = true ↔ f.inFlight = 1) ∧
      (f.ui.loading = true →
        submitDisabled f.ui = true ∧ step rt f Event.submit = none ∧
          ∀ (ev : Event) (g : Form), step rt f ev = some g →
            g.fetchLog = f.fetchLog ∧ g.inFlight ≤ f.inFlight) := by
  obtain ⟨h1, _, _, _⟩ := inv_of_reachable rt f h
  refine ⟨?_, ?_, ?_⟩
  · rw [h1]; split <;> omega
  · rw [h1]
    cases f.ui.loading <;> simp
  · intro hl
    have hd : submitDisabled f.ui = true := by simp [submitDisabled, hl]
    have hsub : step rt f Event.submit = none := by simp [step, hd]
    refine ⟨hd, hsub, ?_⟩
    intro ev g hg
    cases ev with
    | setBullet value =>
      simp only [step, Option.some.injEq] at hg
      subst hg
      exact ⟨rfl, le_refl _⟩
    | setJobDescription value =>
      simp only [step, Option.some.injEq] at hg
      subst hg
      exact ⟨rfl, le_refl _⟩
    | submit => rw [hsub] at hg; simp at hg
    | settle outcome =>
      unfold step at hg
      by_cases h0 : f.inFlight = 0
      · simp [h0] at hg
      · simp only [h0, if_false, Option.some.injEq] at hg
        subst hg
        exact ⟨rfl, Nat.sub_le _ _⟩

/-- C9 at the form after the sample submission, while its request is in flight. -/
theorem single_flight_witness :
    (Form.after sampleRuntime sampleSubmit).ui.loading = true ∧
      (Form.after sampleRuntime sampleSubmit).inFlight ≤ 1 ∧
      step sampleRuntime (Form.after sampleRuntime sampleSubmit) Event.submit = none :=
  have h := single_flight sampleRuntime (Form.after sampleRuntime sampleSubmit)
    (reachable_after sampleRuntime sampleSubmit)
  ⟨by decide, h.1, (h.2.2 (by decide)).2.1⟩

/-- C10: when `fetch` rejects, `optimizeBullet` throws that same failure, and the error
text the form stores is the message of the failure when that message is not empty and
`Something failed` when it is. -/
theorem transport_failure_message (rt : Runtime) (s : State) (err : JSError)
    (net : Request → FetchOutcome) (sub : Submission)
    (hnet : net (optimizeBulletCall rt sub) = .rejected err) :
    optimizeBullet rt net sub = .error err ∧
      (err.message ≠ [] → (onSubmitEnd s (optimizeBullet rt net sub)).error = err.message) ∧
      (err.message = [] →
        (onSubmitEnd s (optimizeBullet rt net sub)).error = lit "Something failed") ∧
      (onSubmitEnd s (optimizeBullet rt net sub)).errorPresent = true := by
  have hres : optimizeBullet rt net sub = .error err := by
    simp [optimizeBullet, hnet, optimizeBulletResult]
  rw [hres]
  refine ⟨rfl, ?_, ?_, ?_⟩
  · intro hne
    cases hm : err.message with
    | nil => exact absurd hm hne
    | cons a l => simp [onSubmitEnd, hm]
  · intro he
    simp [onSubmitEnd, he]
  · cases hm : err.message with
    | nil => simp [onSubmitEnd, hm, State.errorPresent]; decide
    | cons a l => simp [onSubmitEnd, hm, State.errorPresent]

/-- C10 at the failure `Failed to fetch` and at a failure with an empty message. -/
theorem transport_failure_message_witness :
    (onSubmitEnd State.initial
        (optimizeBullet sampleRuntime (fun _ => .rejected ⟨lit "Failed to fetch"⟩)
          { bullet := trim sampleBullet, job_description := trim sampleJob })).error =
        lit "Failed to fetch" ∧
      (onSubmitEnd State.initial
        (optimizeBullet sampleRuntime (fun _ => .rejected ⟨[]⟩)
          { bullet := trim sampleBullet, job_description := trim sampleJob })).error =
        lit "Something failed" :=
  ⟨(transport_failure_message sampleRuntime State.initial ⟨lit "Failed to fetch"⟩
      (fun _ => .rejected ⟨lit "Failed to fetch"⟩)
      { bullet := trim sampleBullet, job_description := trim sampleJob } rfl).2.1 (by decide),
   (transport_failure_message sampleRuntime State.initial ⟨[]⟩
      (fun _ => .rejected ⟨[]⟩)
      { bullet := trim sampleBullet, job_description := trim sampleJob } rfl).2.2.1 rfl⟩

end BulletOptimizer
